import Mathlib

/-
Verification of the `lize` usage script `t.py`.

The script defines one arithmetic function `add`, wraps it with
`Runnable.from_pyfn` and prints the wrapper, serializes `add`, deserializes
the serialized value, and prints the deserialized callable.  The `lize`
package itself is not part of the provided source tree, so its operations
are modelled abstractly from the spec; the module body of `t.py` is
translated as a trace-producing run over that abstract behaviour.
-/

/-- The arithmetic function `add` of `t.py` (lines 5 and 6):
`return (a + b) * k`.  The `int` arguments and the `float` multiplier are
taken in exact arithmetic: integers for `a` and `b`, rationals for `k`. -/
def add (a b : ℤ) (k : ℚ) : ℚ := ((a + b : ℤ) : ℚ) * k

/-- The Python functions the script defines; `t.py` defines exactly `add`. -/
inductive PyFun where
  | add

/-- Modelled from the spec: the `lize` package (providing `Runnable.from_pyfn`,
`serialize` and `deserialize`) is absent from the given source tree, so its
behaviour is abstracted into a record.  `ρ` is the type of `Runnable`
wrappers, `σ` of serialized representations, `δ` of deserialized callables.
Each operation may raise, modelled as `Except` with a `String` message, and
printing a value writes its string representation. -/
structure Lib (ρ σ δ : Type) where
  from_pyfn : PyFun → Except String ρ
  serialize : PyFun → Except String σ
  deserialize : σ → Except String δ
  reprRunnable : ρ → String
  reprDeser : δ → String

/-- Observable events of one run of `t.py`: the `def` statement, the calls
into the `lize` package, and the lines written to standard output. -/
inductive Event (ρ σ δ : Type) where
  | defineAdd
  | call_from_pyfn (f : PyFun) (r : ρ)
  | callSerialize (f : PyFun) (s : σ)
  | callDeserialize (s : σ) (d : δ)
  | printLine (line : String)

/-- One run of the module body of `t.py` (lines 5 to 11), given a behaviour
of the `lize` package: the trace of events in execution order, paired with
the uncaught exception if a library call raised.  The script installs no
exception handler, so the first failing call ends the run and its error
propagates. -/
def runScript {ρ σ δ : Type} (lib : Lib ρ σ δ) :
    List (Event ρ σ δ) × Option String :=
  match lib.from_pyfn PyFun.add with
  | .error e => ([Event.defineAdd], some e)
  | .ok r =>
    match lib.serialize PyFun.add with
    | .error e =>
      ([Event.defineAdd, Event.call_from_pyfn PyFun.add r,
        Event.printLine (lib.reprRunnable r)], some e)
    | .ok s =>
      match lib.deserialize s with
      | .error e =>
        ([Event.defineAdd, Event.call_from_pyfn PyFun.add r,
          Event.printLine (lib.reprRunnable r),
          Event.callSerialize PyFun.add s], some e)
      | .ok d =>
        ([Event.defineAdd, Event.call_from_pyfn PyFun.add r,
          Event.printLine (lib.reprRunnable r),
          Event.callSerialize PyFun.add s,
          Event.callDeserialize s d,
          Event.printLine (lib.reprDeser d)], none)

/-- The lines a trace writes to standard output, in order. -/
def stdoutOf {ρ σ δ : Type} : List (Event ρ σ δ) → List String
  | [] => []
  | Event.printLine l :: es => l :: stdoutOf es
  | _ :: es => stdoutOf es

/-- Process exit code of a run: 0 without an uncaught exception, and 1
(Python's exit code for an uncaught exception) otherwise. -/
def exitCode {ρ σ δ : Type} (run : List (Event ρ σ δ) × Option String) : ℕ :=
  match run.2 with
  | none => 0
  | some _ => 1

/-- A run of `t.py` in a full process context.  The body of `t.py` contains
no reference to `sys.argv` or `os.environ`, so neither the command line nor
the environment occurs in the translation of its statements. -/
def runScriptInEnv {ρ σ δ : Type} (lib : Lib ρ σ δ)
    (_argv : List String) (_env : List (String × String)) :
    List (Event ρ σ δ) × Option String :=
  runScript lib

/-- A concrete library behaviour for which every call succeeds. -/
def libOk : Lib String String String where
  from_pyfn := fun _ => .ok ("<Runnable add>")
  serialize := fun _ => .ok ("blob")
  deserialize := fun s => .ok (("fn:") ++ s)
  reprRunnable := fun r => r
  reprDeser := fun d => d

/-- A concrete library behaviour whose `serialize` raises. -/
def libFailSer : Lib String String String where
  from_pyfn := fun _ => .ok ("<Runnable add>")
  serialize := fun _ => .error ("boom")
  deserialize := fun s => .ok s
  reprRunnable := fun r => r
  reprDeser := fun d => d

/-- A concrete library behaviour whose `deserialize` raises. -/
def libFailDeser : Lib String String String where
  from_pyfn := fun _ => .ok ("<Runnable add>")
  serialize := fun _ => .ok ("blob")
  deserialize := fun _ => .error ("bust")
  reprRunnable := fun r => r
  reprDeser := fun d => d

/-- C1: for all arguments, `add a b k` equals `(a + b) * k`. -/
theorem add_spec (a b : ℤ) (k : ℚ) : add a b k = ((a : ℚ) + (b : ℚ)) * k := by
  unfold add
  push_cast
  ring

/-- C9: `add` is commutative in its first two arguments. -/
theorem add_comm_first_two (a b : ℤ) (k : ℚ) : add a b k = add b a k := by
  unfold add
  push_cast
  ring

/-- C10: over exact rational arithmetic, `add` is linear in its multiplier:
`add a b k = a * k + b * k`, and `add a b 1 = a + b`. -/
theorem add_linear (a b : ℤ) (k : ℚ) :
    add a b k = (a : ℚ) * k + (b : ℚ) * k ∧ add a b 1 = (a : ℚ) + (b : ℚ) := by
  constructor <;> (unfold add; push_cast; ring)

/-- C8: `add` terminates on every input: it is a total function of its three
arguments, returning a value for each of them. -/
theorem add_total (a b : ℤ) (k : ℚ) : ∃ r : ℚ, add a b k = r := ⟨_, rfl⟩

/-- C5: `add` is pure and stateless: two calls with equal arguments return
equal values, the result depending on nothing but the arguments. -/
theorem add_deterministic (a b : ℤ) (k : ℚ) (a₂ b₂ : ℤ) (k₂ : ℚ)
    (ha : a = a₂) (hb : b = b₂) (hk : k = k₂) : add a b k = add a₂ b₂ k₂ := by
  subst ha
  subst hb
  subst hk
  rfl

/-- Witness for C5 at concrete arguments. -/
theorem add_deterministic_witness : add 1 2 (3 : ℚ) = add 1 2 (3 : ℚ) :=
  add_deterministic 1 2 3 1 2 3 rfl rfl rfl

/-- C2: on a run in which every library call succeeds (exactly the runs
that complete), the script writes exactly two lines to standard output:
the string representation of the `Runnable` wrapper of `add`, then the
string representation of the deserialized callable, and nothing else. -/
theorem script_two_lines {ρ σ δ : Type} (lib : Lib ρ σ δ) (r : ρ) (s : σ) (d : δ)
    (h1 : lib.from_pyfn PyFun.add = Except.ok r)
    (h2 : lib.serialize PyFun.add = Except.ok s)
    (h3 : lib.deserialize s = Except.ok d) :
    (runScript lib).2 = none ∧
      stdoutOf (runScript lib).1 = [lib.reprRunnable r, lib.reprDeser d] := by
  simp [runScript, h1, h2, h3, stdoutOf]

/-- Witness for C2 at the concrete behaviour `libOk`. -/
theorem script_two_lines_witness :
    (runScript libOk).2 = none ∧
      stdoutOf (runScript libOk).1 =
        [libOk.reprRunnable ("<Runnable add>"), libOk.reprDeser ("fn:blob")] :=
  script_two_lines libOk ("<Runnable add>") ("blob") ("fn:blob") rfl rfl rfl

/-- C7: on a completing run the script executes, in order: the definition of
`add`, the wrapping of `add` as a `Runnable` together with printing it, the
serialization of `add`, and the deserialization applied exactly to the value
`serialize` just produced for `add`, followed by printing its result. -/
theorem script_trace_order {ρ σ δ : Type} (lib : Lib ρ σ δ) (r : ρ) (s : σ) (d : δ)
    (h1 : lib.from_pyfn PyFun.add = Except.ok r)
    (h2 : lib.serialize PyFun.add = Except.ok s)
    (h3 : lib.deserialize s = Except.ok d) :
    (runScript lib).1 =
      [Event.defineAdd, Event.call_from_pyfn PyFun.add r,
       Event.printLine (lib.reprRunnable r),
       Event.callSerialize PyFun.add s,
       Event.callDeserialize s d,
       Event.printLine (lib.reprDeser d)] := by
  simp [runScript, h1, h2, h3]

/-- Witness for C7 at the concrete behaviour `libOk`. -/
theorem script_trace_order_witness :
    (runScript libOk).1 =
      [Event.defineAdd, Event.call_from_pyfn PyFun.add ("<Runnable add>"),
       Event.printLine (libOk.reprRunnable ("<Runnable add>")),
       Event.callSerialize PyFun.add ("blob"),
       Event.callDeserialize ("blob") ("fn:blob"),
       Event.printLine (libOk.reprDeser ("fn:blob"))] :=
  script_trace_order libOk ("<Runnable add>") ("blob") ("fn:blob") rfl rfl rfl

/-- C4: the exit code is 0 exactly on the runs with no uncaught exception;
when every library call succeeds the run exits with code 0, and a failure of
`serialize` or of `deserialize` propagates unhandled, its error reaching the
process boundary with a non-zero exit code. -/
theorem script_error_propagation {ρ σ δ : Type} (lib : Lib ρ σ δ) :
    (exitCode (runScript lib) = 0 ↔ (runScript lib).2 = none) ∧
    (∀ r s d, lib.from_pyfn PyFun.add = Except.ok r →
      lib.serialize PyFun.add = Except.ok s →
      lib.deserialize s = Except.ok d → exitCode (runScript lib) = 0) ∧
    (∀ r e, lib.from_pyfn PyFun.add = Except.ok r →
      lib.serialize PyFun.add = Except.error e →
      (runScript lib).2 = some e ∧ exitCode (runScript lib) = 1) ∧
    (∀ r s e, lib.from_pyfn PyFun.add = Except.ok r →
      lib.serialize PyFun.add = Except.ok s →
      lib.deserialize s = Except.error e →
      (runScript lib).2 = some e ∧ exitCode (runScript lib) = 1) := by
  refine ⟨?_, ?_, ?_, ?_⟩
  · cases h : (runScript lib).2 <;> simp [exitCode, h]
  · intro r s d h1 h2 h3
    simp [exitCode, runScript, h1, h2, h3]
  · intro r e h1 h2
    simp [exitCode, runScript, h1, h2]
  · intro r s e h1 h2 h3
    simp [exitCode, runScript, h1, h2, h3]

/-- Witness for C4 at the concrete behaviours `libOk`, `libFailSer` and
`libFailDeser`. -/
theorem script_error_propagation_witness :
    exitCode (runScript libOk) = 0 ∧
      ((runScript libFailSer).2 = some ("boom") ∧
        exitCode (runScript libFailSer) = 1) ∧
      ((runScript libFailDeser).2 = some ("bust") ∧
        exitCode (runScript libFailDeser) = 1) :=
  ⟨(script_error_propagation libOk).2.1 ("<Runnable add>") ("blob") ("fn:blob")
      rfl rfl rfl,
   (script_error_propagation libFailSer).2.2.1 ("<Runnable add>") ("boom")
      rfl rfl,
   (script_error_propagation libFailDeser).2.2.2 ("<Runnable add>") ("blob")
      ("bust") rfl rfl rfl⟩

/-- C6: the behaviour of the script is independent of the command line and
of the environment: two runs differing only in `argv` or in the environment
produce the same trace, the same output and the same exception outcome. -/
theorem script_env_independent {ρ σ δ : Type} (lib : Lib ρ σ δ)
    (argv₁ : List String) (env₁ : List (String × String))
    (argv₂ : List String) (env₂ : List (String × String)) :
    runScriptInEnv lib argv₁ env₁ = runScriptInEnv lib argv₂ env₂ := rfl

/-- C3 counterexample: at the concrete behaviour `libOk`, the run of the
script writes lines to standard output, so the script does perform I/O. -/
theorem script_writes_stdout : stdoutOf (runScript libOk).1 ≠ [] := by
  intro h
  rw [show stdoutOf (runScript libOk).1 =
      [libOk.reprRunnable ("<Runnable add>"), libOk.reprDeser ("fn:blob")]
    from rfl] at h
  exact List.noConfusion h

/-- C3 amended: the script performs no I/O beyond writing at most two lines
to standard output on any run. -/
theorem script_stdout_at_most_two {ρ σ δ : Type} (lib : Lib ρ σ δ) :
    (stdoutOf (runScript lib).1).length ≤ 2 := by
  unfold runScript
  cases h1 : lib.from_pyfn PyFun.add with
  | error e => simp [stdoutOf]
  | ok r =>
    cases h2 : lib.serialize PyFun.add with
    | error e => simp [stdoutOf]
    | ok s =>
      cases h3 : lib.deserialize s with
      | error e => simp [stdoutOf, h3]
      | ok d => simp [stdoutOf, h3]
